import Mathlib

/-!
Shallow embedding of `gatsby-theme-kuworking-core`'s `gatsby-node.js`
(the file registering the Gatsby lifecycle hooks `onCreatePage`,
`onCreateNode` and `createPages`), together with models of the external
host utilities the hooks call:

* `urlResolve` from `gatsby-core-utils`, which is Node's
  `path.posix.join` restricted to the two-argument uses in this file;
* `path.isAbsolute` (posix);
* the `String.prototype.normalize('NFD')` Unicode normalizer, the
  `crypto` md5 hash, `createNodeId` and `createFilePath`, which are
  host- or engine-supplied and are therefore taken as parameters or as
  inputs of the embedding.

String-processing steps are defined through `String.data`/`String.mk`
so that proofs can proceed by list induction; each definition's doc
comment points at the JavaScript it translates.
-/

namespace GatsbyKuworking

/-! ### Character-list utilities modelling JS string primitives -/

/-- Model of JS `s.split(sep)` for a one-character separator, on the
character list: `"" → [""]`, separators produce empty pieces. -/
def splitOnChar (sep : Char) : List Char → List (List Char)
  | [] => [[]]
  | c :: cs =>
    let r := splitOnChar sep cs
    if c = sep then [] :: r
    else
      match r with
      | [] => [[c]]
      | s :: ss => (c :: s) :: ss

/-- Joining path segments with `/`, as Node's `path.posix` does when it
re-assembles the normalized segment list. -/
def joinSegs : List (List Char) → List Char
  | [] => []
  | [s] => s
  | s :: ss => s ++ '/' :: joinSegs ss

/-- One step of Node's `normalizeString` over `path.posix.normalize`:
empty and `.` segments are dropped, `..` pops the previous segment
(or, for relative paths, accumulates), anything else is pushed.
`acc` is the reversed stack of kept segments; `aar` is Node's
`allowAboveRoot` (true for relative paths). -/
def normStep (aar : Bool) (acc : List (List Char)) (seg : List Char) :
    List (List Char) :=
  if seg = [] ∨ seg = ['.'] then acc
  else if seg = ['.', '.'] then
    match acc with
    | [] => if aar then [['.', '.']] else []
    | top :: rest =>
      if top = ['.', '.'] then (if aar then ['.', '.'] :: acc else acc)
      else rest
  else seg :: acc

/-- The normalized segment list of a path, in order. -/
def normSegs (aar : Bool) (segs : List (List Char)) : List (List Char) :=
  (segs.foldl (normStep aar) []).reverse

/-- Model of posix `path.isAbsolute`: nonempty and starting with `/`. -/
def isAbsolutePosix (s : String) : Bool :=
  s.data.head? = some '/'

/-- Does the string end in a slash? (JS `/\/$/` test.) -/
def endsSlash (s : String) : Bool :=
  s.data.getLast? = some '/'

/-- Model of Node `path.posix.normalize`. -/
def posixNormalize (p : String) : String :=
  if p.data = [] then "."
  else
    let isAbs := isAbsolutePosix p
    let trailing := endsSlash p
    let core := joinSegs (normSegs (!isAbs) (splitOnChar '/' p.data))
    if core = [] then
      if isAbs then "/" else if trailing then "./" else "."
    else
      String.mk ((if isAbs then ['/'] else []) ++ core ++
        (if trailing then ['/'] else []))

/-- Model of Node `path.posix.join` on two arguments: empty arguments
are skipped, the remainder is joined with `/` and normalized; with no
non-empty argument the result is `"."`.  `urlResolve` of
`gatsby-core-utils` is exactly `path.posix.join`, and `gatsby-node.js`
only ever calls it with two arguments. -/
def urlResolve (a b : String) : String :=
  if a = "" ∧ b = "" then "."
  else if a = "" then posixNormalize b
  else if b = "" then posixNormalize a
  else posixNormalize (a ++ "/" ++ b)

/-- `gatsby-node.js` line 13:
`const replacePath = _path => (_path === '/' ? _path : _path.replace(/\/$/, ''))`.
The regex replaces a single trailing slash. -/
def replacePath (p : String) : String :=
  if p = "/" then p
  else if p.data.getLast? = some '/' then String.mk p.data.dropLast
  else p

/-- Does the string end in two consecutive slashes? -/
def endsTwoSlash (s : String) : Bool :=
  match s.data.reverse with
  | c0 :: c1 :: _ => c0 == '/' && c1 == '/'
  | _ => false

/-! ### Tag derivation (`gatsby-node.js` lines 83-91) -/

/-- The combining-diacritics range `[̀-ͯ]` of the regex. -/
def isCombining (c : Char) : Bool :=
  0x300 ≤ c.toNat && c.toNat ≤ 0x36F

/-- `.replace(/[̀-ͯ]/g, '')`. -/
def stripCombining (s : String) : String :=
  String.mk (s.data.filter (fun c => !isCombining c))

/-- `.replace(/ /g, '-')`. -/
def spaceToDash (s : String) : String :=
  String.mk (s.data.map (fun c => if c = ' ' then '-' else c))

/-- The JS WhiteSpace/LineTerminator set that `String.prototype.trim`
strips. -/
def jsWhitespace (c : Char) : Bool :=
  c.toNat == 9 || c.toNat == 10 || c.toNat == 11 || c.toNat == 12 ||
  c.toNat == 13 || c.toNat == 32 || c.toNat == 160 ||
  c.toNat == 0x1680 ||
  (0x2000 ≤ c.toNat && c.toNat ≤ 0x200A) ||
  c.toNat == 0x2028 || c.toNat == 0x2029 || c.toNat == 0x202F ||
  c.toNat == 0x205F || c.toNat == 0x3000 || c.toNat == 0xFEFF

/-- JS `el.trim()`: strip leading and trailing whitespace. -/
def jsTrim (s : String) : String :=
  String.mk
    (((s.data.dropWhile jsWhitespace).reverse.dropWhile
      jsWhitespace).reverse)

/-- The per-piece mapping of the tag derivation:
`el.trim().normalize('NFD').replace(/[̀-ͯ]/g, '').replace(/ /g, '-')`.
`nfd` is the engine's Unicode NFD normalizer, taken as a parameter. -/
def cleanTag (nfd : String → String) (el : String) : String :=
  spaceToDash (stripCombining (nfd (jsTrim el)))

/-- `node.frontmatter.tags.split(',')`. -/
def splitCommas (s : String) : List String :=
  (splitOnChar ',' s.data).map String.mk

/-- The derived tag list for a non-empty front-matter tags string. -/
def deriveTags (nfd : String → String) (tagsStr : String) : List String :=
  (splitCommas tagsStr).map (cleanTag nfd)

/-! ### Slug derivation (`gatsby-node.js` lines 59-93) -/

/-- One character of the regex `.` class (anything but a line terminator). -/
def jsRegexDot (c : Char) : Bool :=
  !(c == '\n' || c == '\r' || c.toNat == 0x2028 || c.toNat == 0x2029)

/-- `/^.\d{4}\.\d{2}\.\d{2}\./.test(filePath)`. -/
def datePrefixMatch (s : String) : Bool :=
  match s.data with
  | c0 :: c1 :: c2 :: c3 :: c4 :: c5 :: c6 :: c7 :: c8 :: c9 :: c10 :: c11 :: _ =>
    jsRegexDot c0 && c1.isDigit && c2.isDigit && c3.isDigit && c4.isDigit &&
    c5 == '.' && c6.isDigit && c7.isDigit && c8 == '.' &&
    c9.isDigit && c10.isDigit && c11 == '.'
  | _ => false

/-- Line 78: `/^.\d{4}\.\d{2}\.\d{2}\./.test(filePath) ? '/' + filePath.split('.').pop() : filePath`. -/
def changedPath (filePath : String) : String :=
  if datePrefixMatch filePath then
    "/" ++ String.mk ((splitOnChar '.' filePath.data).getLastD [])
  else filePath

/-! ### Data model of the hooks' inputs and outputs -/

/-- Front-matter of an Mdx node; `none` models a missing (`undefined`)
field.  `type` is a Lean keyword, so that field is named `ftype`. -/
structure Frontmatter where
  title : Option String
  slug : Option String
  date : Option String
  tags : Option String
  keywords : Option (List String)
  ftype : Option String
  snippet : Option String
  abstract : Option String
deriving Repr, DecidableEq

/-- Theme options after `withDefaults`.  The `utils/default-options`
module is not part of this file; the hooks only read the fields below,
so the options are quantified over rather than defaulted.  The three
`do_not_*` options are `undefined` unless configured (`none` here); the
first two are arrays used with `.includes`, the last a single tag
compared with `!==`. -/
structure ThemeOptions where
  basePath : String
  postsPath : String
  recipesPath : String
  tagsPath : String
  postsPerPage : Nat
  do_not_count_type_for_pagination : Option (List String)
  do_not_include_type_in_lists : Option (List String)
  do_not_create_tag_page_for : Option String
deriving Repr, DecidableEq

/-- The slice of the incoming node `onCreateNode` reads. -/
structure NodeInput where
  id : String
  internalType : String
  frontmatter : Frontmatter
deriving Repr, DecidableEq

/-- The slice of the parent file node `onCreateNode` reads;
`createFilePathResult` stands for the value the external
`createFilePath({node: fileNode, getNode, basePath: source})` call
returns for this file node. -/
structure FileNode where
  sourceInstanceName : String
  createFilePathResult : String
deriving Repr, DecidableEq

/-- JS `x || d` for a possibly-missing string: `undefined` and `""` are
falsy. -/
def jsOrString (v : Option String) (d : String) : String :=
  match v with
  | none => d
  | some s => if s = "" then d else s

/-- The slug of lines 59-80 followed by the line-93 `replacePath`. -/
def deriveSlug (opts : ThemeOptions) (fm : Frontmatter) (filePath : String) :
    String :=
  let fmSlug := fm.slug.getD ""
  let slug :=
    if fmSlug ≠ "" then
      if isAbsolutePosix fmSlug then fmSlug
      else urlResolve opts.basePath fmSlug
    else urlResolve opts.basePath (changedPath filePath)
  replacePath slug

/-- The `fieldData` object of lines 95-104. -/
structure FieldData where
  title : Option String
  tags : List String
  slug : String
  date : Option String
  keywords : List String
  ftype : String
  snippet : String
  abstract : String
deriving Repr, DecidableEq

/-- Lines 83-104: tags, slug and the defaulted optional fields. -/
def mkFieldData (nfd : String → String) (opts : ThemeOptions)
    (fm : Frontmatter) (filePath : String) : FieldData :=
  { title := fm.title
    tags :=
      match fm.tags with
      | none => []
      | some t => if t = "" then [] else deriveTags nfd t
    slug := deriveSlug opts fm filePath
    date := fm.date
    keywords := fm.keywords.getD []
    ftype := jsOrString fm.ftype ""
    snippet := jsOrString fm.snippet ""
    abstract := jsOrString fm.abstract "" }

/-- JSON string escaping (quotes and backslashes; the control-character
escapes of full JSON never arise in the claims and are elided). -/
def jsonEscape (s : String) : String :=
  String.mk (s.data.foldr
    (fun c acc => if c = '"' ∨ c = '\\' then '\\' :: c :: acc else c :: acc) [])

/-- A JSON string literal. -/
def jsonStr (s : String) : String := "\"" ++ jsonEscape s ++ "\""

/-- A JSON array of string literals. -/
def jsonArr (l : List String) : String :=
  "[" ++ String.intercalate "," (l.map jsonStr) ++ "]"

/-- Model of `JSON.stringify(fieldData)`: keys in declaration order,
fields holding `undefined` omitted. -/
def fieldDataJSON (fd : FieldData) : String :=
  let entries : List (Option (String × String)) :=
    [ fd.title.map (fun t => ("title", jsonStr t)),
      some ("tags", jsonArr fd.tags),
      some ("slug", jsonStr fd.slug),
      fd.date.map (fun d => ("date", jsonStr d)),
      some ("keywords", jsonArr fd.keywords),
      some ("type", jsonStr fd.ftype),
      some ("snippet", jsonStr fd.snippet),
      some ("abstract", jsonStr fd.abstract) ]
  "\x7b" ++
    String.intercalate ","
      ((entries.filterMap id).map
        (fun e => jsonStr e.1 ++ ":" ++ e.2)) ++ "\x7d"

/-- The `MdxBlogPost` node created at lines 106-122. -/
structure MdxBlogPost where
  fieldData : FieldData
  id : String
  parent : String
  contentDigest : String
  content : String
deriving Repr, DecidableEq

/-- `gatsby-node.js` lines 48-125.  `md5`, `createNodeId` and `nfd` are
host- or engine-supplied functions taken as parameters.  The result is
the `MdxBlogPost` node the hook creates, or `none` when the hook
returns without creating one (non-Mdx node, or a source other than
`postsPath`/`recipesPath`). -/
def onCreateNode (md5 createNodeId nfd : String → String)
    (opts : ThemeOptions) (node : NodeInput) (fileNode : FileNode) :
    Option MdxBlogPost :=
  if node.internalType ≠ "Mdx" then none
  else
    let source := fileNode.sourceInstanceName
    if source = opts.postsPath ∨ source = opts.recipesPath then
      let fd := mkFieldData nfd opts node.frontmatter
        fileNode.createFilePathResult
      some
        { fieldData := fd
          id := createNodeId (node.id ++ " >>> MdxBlogPost")
          parent := node.id
          contentDigest := md5 (fieldDataJSON fd)
          content := fieldDataJSON fd }
    else none

/-! ### `createPages` (`gatsby-node.js` lines 131-246) -/

/-- The slice of a queried `allMdxBlogPost` node `createPages` reads. -/
structure PostNode where
  id : String
  slug : String
  tags : List String
  ftype : String
deriving Repr, DecidableEq, Inhabited

/-- The two resolved templates. -/
inductive Component where
  | postTemplate
  | postsTemplate
deriving Repr, DecidableEq

/-- The three context shapes handed to `createPage`, fields in source
order: `postCtx basePath pre_path id previousId nextId` (lines
170-176), `gridCtx basePath pre_path limit skip num_of_pages
current_page this_is_a_tag_search excluded_type all_posts` (lines
190-200), `tagCtx basePath pre_path limit skip num_of_pages
current_page tag global_tags this_is_a_tag_search` (lines 232-242). -/
inductive PageContext where
  | postCtx (basePath pre_path id : String)
      (previousId nextId : Option String)
  | gridCtx (basePath pre_path : String)
      (limit skip num_of_pages current_page : Nat)
      (this_is_a_tag_search : Bool) (excluded_type : List String)
      (all_posts : List PostNode)
  | tagCtx (basePath pre_path : String)
      (limit skip num_of_pages current_page : Nat)
      (tag : String) (global_tags : List String)
      (this_is_a_tag_search : Bool)
deriving Repr, DecidableEq

/-- One `createPage` call's argument. -/
structure CreatedPage where
  path : String
  component : Component
  context : PageContext
deriving Repr, DecidableEq

/-- `Math.ceil(m / p)` for natural `m` and positive `p` (`createPages`
is only meaningful for `postsPerPage > 0`; at `p = 0` JS would produce
`Infinity` and `Array.from` would throw). -/
def ceilNatDiv (m p : Nat) : Nat := (m + p - 1) / p

/-- Lines 163-178: the page for the post at `index`. -/
def mkPostPage (opts : ThemeOptions) (posts : List PostNode)
    (index : Nat) : CreatedPage :=
  let post := posts.getD index default
  let previous := if index = posts.length - 1 then none else posts[index + 1]?
  let next := if index = 0 then none else posts[index - 1]?
  { path := post.slug
    component := .postTemplate
    context := .postCtx opts.basePath opts.basePath post.id
      (previous.map (·.id)) (next.map (·.id)) }

/-- Lines 163-178: `posts.forEach((post, index) => createPage(...))`. -/
def postPages (opts : ThemeOptions) (posts : List PostNode) :
    List CreatedPage :=
  (List.range posts.length).map (mkPostPage opts posts)

/-- Lines 181-183: `filtered_posts_by_type`. -/
def filteredPostsByType (opts : ThemeOptions) (posts : List PostNode) :
    List PostNode :=
  match opts.do_not_count_type_for_pagination with
  | none => posts
  | some excl => posts.filter (fun p => !excl.contains p.ftype)

/-- Lines 186-202: the paginated main (grid) listing pages. -/
def gridPages (opts : ThemeOptions) (posts : List PostNode) :
    List CreatedPage :=
  let numPages := ceilNatDiv (filteredPostsByType opts posts).length
    opts.postsPerPage
  (List.range numPages).map (fun index =>
    { path :=
        if index = 0 then opts.basePath
        else opts.basePath ++ toString (index + 1)
      component := .postsTemplate
      context := .gridCtx opts.basePath opts.basePath
        opts.postsPerPage (index * opts.postsPerPage) numPages (index + 1)
        false (opts.do_not_count_type_for_pagination.getD []) posts })

/-- Lines 207-209: `filtered_posts_by_tag`. -/
def filteredPostsByTag (opts : ThemeOptions) (posts : List PostNode) :
    List PostNode :=
  match opts.do_not_include_type_in_lists with
  | none => posts
  | some excl => posts.filter (fun p => !excl.contains p.ftype)

/-- Lines 211-219: `global_tags` before deduplication, the
concatenation of the filtered posts' tag lists in order. -/
def globalTags (posts : List PostNode) : List String :=
  (posts.map (·.tags)).flatten

/-- Lines 212-219: `counting_by_tags[tag]`, the number of occurrences
of `tag` across the filtered posts' tag lists (a post listing a tag
twice contributes twice). -/
def countByTag (posts : List PostNode) (tag : String) : Nat :=
  (globalTags posts).count tag

/-- `[...new Set(l)]`: deduplication keeping first occurrences in
order, as JS `Set` iteration does. -/
def dedupFirstAux (seen : List String) : List String → List String
  | [] => []
  | x :: xs =>
    if seen.contains x then dedupFirstAux seen xs
    else x :: dedupFirstAux (x :: seen) xs

/-- Line 224: `global_tags = [...new Set(global_tags)]`. -/
def dedupFirst (l : List String) : List String := dedupFirstAux [] l

/-- Lines 226-244: the pages for one tag (`gts` is the deduplicated
`global_tags` array placed in each context, `cnt` is
`counting_by_tags[tag]`). -/
def tagPagesFor (opts : ThemeOptions) (gts : List String) (cnt : Nat)
    (tag : String) : List CreatedPage :=
  let numPages_perTag := ceilNatDiv cnt opts.postsPerPage
  (List.range numPages_perTag).map (fun index =>
    { path :=
        if index = 0 then
          opts.basePath ++ opts.tagsPath ++ "/" ++ tag ++ "/"
        else
          opts.basePath ++ opts.tagsPath ++ "/" ++ tag ++ "/" ++
            toString (index + 1)
      component := .postsTemplate
      context := .tagCtx opts.basePath
        (opts.basePath ++ opts.tagsPath ++ "/" ++ tag)
        opts.postsPerPage (index * opts.postsPerPage) numPages_perTag
        (index + 1) tag gts true })

/-- Lines 204-245: all tag listing pages.  Line 221,
`global_tags.filter(tag => tag !== do_not_create_tag_page_for)`,
discards its result (a fresh array, never assigned), so
`do_not_create_tag_page_for` does not influence anything below it and
does not appear here. -/
def tagPages (opts : ThemeOptions) (posts : List PostNode) :
    List CreatedPage :=
  let filtered := filteredPostsByTag opts posts
  let gts := dedupFirst (globalTags filtered)
  gts.flatMap (fun tag => tagPagesFor opts gts (countByTag filtered tag) tag)

/-- The GraphQL query's outcome at line 142: possible errors and the
queried post list (date/title-descending, as sorted by the host). -/
structure GraphqlResult where
  errors : Option String
  posts : List PostNode
deriving Repr, DecidableEq

/-- `gatsby-node.js` lines 131-246.  `reporter.panic` aborts the build
and never returns; it is modelled by the `Except.error` result carrying
the reported errors, in which case no page is created.  Otherwise the
pages are returned in creation order: per-post pages, then the grid
pages, then the tag pages. -/
def createPages (opts : ThemeOptions) (result : GraphqlResult) :
    Except String (List CreatedPage) :=
  match result.errors with
  | some e => .error e
  | none =>
    let posts := result.posts
    .ok (postPages opts posts ++ gridPages opts posts ++
      tagPages opts posts)

/-! ### `onCreatePage` (`gatsby-node.js` lines 15-30) -/

/-- `startsWithList n h`: is `n` a prefix of `h`? -/
def startsWithList : List Char → List Char → Bool
  | [], _ => true
  | _ :: _, [] => false
  | n :: ns, h :: hs => n == h && startsWithList ns hs

/-- Is `needle` a contiguous substring of `hay`? -/
def includesList (needle hay : List Char) : Bool :=
  startsWithList needle hay ||
    match hay with
    | [] => false
    | _ :: hs => includesList needle hs

/-- JS `hay.includes(needle)`. -/
def jsIncludes (hay needle : String) : Bool :=
  includesList needle.data hay.data

/-- A page as `onCreatePage` sees it: its path, its context (an
association list in JS object-literal order, later entries winning on
key clashes), and `other`, the remaining page fields the hook never
touches. -/
structure Page (α : Type) where
  path : String
  context : List (String × String)
  other : α
deriving Repr, DecidableEq

/-- What the hook does to a page: `unchanged` models the early `return`
(no `deletePage`/`createPage` call); `replace p` models `deletePage(page)`
followed by `createPage(p)`. -/
inductive PageAction (α : Type) where
  | unchanged
  | replace (p : Page α)
deriving Repr, DecidableEq

/-- `gatsby-node.js` lines 15-30.  The spread
`{ basePath: basePath, ...page.context }` places the `basePath` entry
first and then the original entries, so it is modelled by consing the
`basePath` pair onto the context association list. -/
def onCreatePage {α : Type} (opts : ThemeOptions) (page : Page α) :
    PageAction α :=
  if jsIncludes page.path "404" then .unchanged
  else
    .replace
      { path := urlResolve (replacePath opts.basePath)
          (replacePath page.path)
        context := ("basePath", opts.basePath) :: page.context
        other := page.other }

/-- The tag a created page's context carries, when it is a tag-page
context. -/
def ctxTag : PageContext → Option String
  | .tagCtx _ _ _ _ _ _ tag _ _ => some tag
  | _ => none

/-- The `skip` field of a listing context, when present. -/
def ctxSkip : PageContext → Option Nat
  | .gridCtx _ _ _ skip _ _ _ _ _ => some skip
  | .tagCtx _ _ _ skip _ _ _ _ _ => some skip
  | _ => none

/-- The `limit` field of a listing context, when present. -/
def ctxLimit : PageContext → Option Nat
  | .gridCtx _ _ limit _ _ _ _ _ _ => some limit
  | .tagCtx _ _ limit _ _ _ _ _ _ => some limit
  | _ => none

/-! ### Claim theorems -/

/-- C2: in `createPages`, if the GraphQL query result contains errors,
the build is aborted by reporting those errors (`reporter.panic` is
called with them, modelled by the `Except.error` outcome), and no page
is created in that run. -/
theorem C2_query_errors_abort (opts : ThemeOptions) (result : GraphqlResult)
    (e : String) (h : result.errors = some e) :
    createPages opts result = Except.error e := by
  unfold createPages
  rw [h]

theorem C2_query_errors_abort_witness :
    ({ errors := some "boom", posts := [] } : GraphqlResult).errors =
        some "boom" ∧
      createPages
        { basePath := "/", postsPath := "posts", recipesPath := "recipes",
          tagsPath := "tags", postsPerPage := 1,
          do_not_count_type_for_pagination := none,
          do_not_include_type_in_lists := none,
          do_not_create_tag_page_for := none }
        { errors := some "boom", posts := [] } = Except.error "boom" :=
  ⟨rfl,
    C2_query_errors_abort
      { basePath := "/", postsPath := "posts", recipesPath := "recipes",
        tagsPath := "tags", postsPerPage := 1,
        do_not_count_type_for_pagination := none,
        do_not_include_type_in_lists := none,
        do_not_create_tag_page_for := none }
      { errors := some "boom", posts := [] } "boom" rfl⟩

/-- C7: slug derivation is deterministic: any two invocations of
`onCreateNode` with identical front-matter, identical parent file node
and identical theme options (and the same host-supplied `md5`,
`createNodeId` and NFD functions) that create an `MdxBlogPost` node
compute identical slug, tags, `fieldData` and `contentDigest` — even
when the two incoming nodes themselves differ (for example in their
ids): the derivation reads nothing else of the node. -/
theorem C7_deterministic (md5 createNodeId nfd : String → String)
    (o₁ o₂ : ThemeOptions) (n₁ n₂ : NodeInput) (f₁ f₂ : FileNode)
    (p₁ p₂ : MdxBlogPost)
    (hfm : n₁.frontmatter = n₂.frontmatter) (hf : f₁ = f₂)
    (ho : o₁ = o₂)
    (h₁ : onCreateNode md5 createNodeId nfd o₁ n₁ f₁ = some p₁)
    (h₂ : onCreateNode md5 createNodeId nfd o₂ n₂ f₂ = some p₂) :
    p₁.fieldData.slug = p₂.fieldData.slug ∧
    p₁.fieldData.tags = p₂.fieldData.tags ∧
    p₁.fieldData = p₂.fieldData ∧
    p₁.contentDigest = p₂.contentDigest := by
  subst hf ho
  have e₁ : p₁.fieldData = mkFieldData nfd o₁ n₁.frontmatter
        f₁.createFilePathResult ∧
      p₁.contentDigest = md5 (fieldDataJSON (mkFieldData nfd o₁
        n₁.frontmatter f₁.createFilePathResult)) := by
    unfold onCreateNode at h₁
    split at h₁
    · exact absurd h₁ (by simp)
    · dsimp only at h₁
      split at h₁
      · rw [Option.some.injEq] at h₁
        subst h₁
        exact ⟨rfl, rfl⟩
      · exact absurd h₁ (by simp)
  have e₂ : p₂.fieldData = mkFieldData nfd o₁ n₂.frontmatter
        f₁.createFilePathResult ∧
      p₂.contentDigest = md5 (fieldDataJSON (mkFieldData nfd o₁
        n₂.frontmatter f₁.createFilePathResult)) := by
    unfold onCreateNode at h₂
    split at h₂
    · exact absurd h₂ (by simp)
    · dsimp only at h₂
      split at h₂
      · rw [Option.some.injEq] at h₂
        subst h₂
        exact ⟨rfl, rfl⟩
      · exact absurd h₂ (by simp)
  rw [e₁.1, e₁.2, e₂.1, e₂.2, hfm]
  exact ⟨rfl, rfl, rfl, rfl⟩

theorem C7_deterministic_witness :
    (({ id := "n1", internalType := "Mdx",
        frontmatter :=
          { title := some "t", slug := some "/a", date := none,
            tags := some "x, y", keywords := none, ftype := none,
            snippet := none, abstract := none } } : NodeInput) ≠
      { id := "n2", internalType := "Mdx",
        frontmatter :=
          { title := some "t", slug := some "/a", date := none,
            tags := some "x, y", keywords := none, ftype := none,
            snippet := none, abstract := none } }) ∧
    ({ id := "n1", internalType := "Mdx",
       frontmatter :=
         { title := some "t", slug := some "/a", date := none,
           tags := some "x, y", keywords := none, ftype := none,
           snippet := none, abstract := none } } : NodeInput).frontmatter =
      ({ id := "n2", internalType := "Mdx",
         frontmatter :=
           { title := some "t", slug := some "/a", date := none,
             tags := some "x, y", keywords := none, ftype := none,
             snippet := none, abstract := none } } : NodeInput).frontmatter ∧
    (onCreateNode id id id
        { basePath := "/", postsPath := "posts", recipesPath := "recipes",
          tagsPath := "tags", postsPerPage := 1,
          do_not_count_type_for_pagination := none,
          do_not_include_type_in_lists := none,
          do_not_create_tag_page_for := none }
        { id := "n1", internalType := "Mdx",
          frontmatter :=
            { title := some "t", slug := some "/a", date := none,
              tags := some "x, y", keywords := none, ftype := none,
              snippet := none, abstract := none } }
        { sourceInstanceName := "posts",
          createFilePathResult := "/p/" }).map
        (fun p => (p.fieldData, p.contentDigest)) =
      (onCreateNode id id id
        { basePath := "/", postsPath := "posts", recipesPath := "recipes",
          tagsPath := "tags", postsPerPage := 1,
          do_not_count_type_for_pagination := none,
          do_not_include_type_in_lists := none,
          do_not_create_tag_page_for := none }
        { id := "n2", internalType := "Mdx",
          frontmatter :=
            { title := some "t", slug := some "/a", date := none,
              tags := some "x, y", keywords := none, ftype := none,
              snippet := none, abstract := none } }
        { sourceInstanceName := "posts",
          createFilePathResult := "/p/" }).map
        (fun p => (p.fieldData, p.contentDigest)) := by
  refine ⟨by decide, by decide, ?_⟩
  obtain ⟨p₁, h₁⟩ :
      ∃ p, onCreateNode id id id
          { basePath := "/", postsPath := "posts", recipesPath := "recipes",
            tagsPath := "tags", postsPerPage := 1,
            do_not_count_type_for_pagination := none,
            do_not_include_type_in_lists := none,
            do_not_create_tag_page_for := none }
          { id := "n1", internalType := "Mdx",
            frontmatter :=
              { title := some "t", slug := some "/a", date := none,
                tags := some "x, y", keywords := none, ftype := none,
                snippet := none, abstract := none } }
          { sourceInstanceName := "posts", createFilePathResult := "/p/" } =
        some p := ⟨_, rfl⟩
  obtain ⟨p₂, h₂⟩ :
      ∃ p, onCreateNode id id id
          { basePath := "/", postsPath := "posts", recipesPath := "recipes",
            tagsPath := "tags", postsPerPage := 1,
            do_not_count_type_for_pagination := none,
            do_not_include_type_in_lists := none,
            do_not_create_tag_page_for := none }
          { id := "n2", internalType := "Mdx",
            frontmatter :=
              { title := some "t", slug := some "/a", date := none,
                tags := some "x, y", keywords := none, ftype := none,
                snippet := none, abstract := none } }
          { sourceInstanceName := "posts", createFilePathResult := "/p/" } =
        some p := ⟨_, rfl⟩
  obtain ⟨_, _, c3, c4⟩ :=
    C7_deterministic id id id
      { basePath := "/", postsPath := "posts", recipesPath := "recipes",
        tagsPath := "tags", postsPerPage := 1,
        do_not_count_type_for_pagination := none,
        do_not_include_type_in_lists := none,
        do_not_create_tag_page_for := none }
      { basePath := "/", postsPath := "posts", recipesPath := "recipes",
        tagsPath := "tags", postsPerPage := 1,
        do_not_count_type_for_pagination := none,
        do_not_include_type_in_lists := none,
        do_not_create_tag_page_for := none }
      { id := "n1", internalType := "Mdx",
        frontmatter :=
          { title := some "t", slug := some "/a", date := none,
            tags := some "x, y", keywords := none, ftype := none,
            snippet := none, abstract := none } }
      { id := "n2", internalType := "Mdx",
        frontmatter :=
          { title := some "t", slug := some "/a", date := none,
            tags := some "x, y", keywords := none, ftype := none,
            snippet := none, abstract := none } }
      { sourceInstanceName := "posts", createFilePathResult := "/p/" }
      { sourceInstanceName := "posts", createFilePathResult := "/p/" }
      p₁ p₂ rfl rfl rfl h₁ h₂
  rw [h₁, h₂, Option.map_some', Option.map_some', c3, c4]

/-- C1: for every Mdx node processed from the posts or recipes source
(that is, whenever `onCreateNode` actually creates an `MdxBlogPost`
node), each missing optional front-matter field defaults to an empty
value on the created node: `tags` to `[]`, `keywords` to `[]`, and
`type`, `snippet` and `abstract` to `""`. -/
theorem C1_missing_fields_default (md5 createNodeId nfd : String → String)
    (opts : ThemeOptions) (node : NodeInput) (fileNode : FileNode)
    (post : MdxBlogPost)
    (h : onCreateNode md5 createNodeId nfd opts node fileNode = some post) :
    (node.frontmatter.tags = none → post.fieldData.tags = []) ∧
    (node.frontmatter.keywords = none → post.fieldData.keywords = []) ∧
    (node.frontmatter.ftype = none → post.fieldData.ftype = "") ∧
    (node.frontmatter.snippet = none → post.fieldData.snippet = "") ∧
    (node.frontmatter.abstract = none → post.fieldData.abstract = "") := by
  unfold onCreateNode at h
  split at h
  · exact absurd h (by simp)
  · dsimp only at h
    split at h
    · rw [Option.some.injEq] at h
      subst h
      refine ⟨?_, ?_, ?_, ?_, ?_⟩ <;>
        · intro hnone
          simp [mkFieldData, jsOrString, hnone]
    · exact absurd h (by simp)

theorem C1_missing_fields_default_witness :
    (onCreateNode id id id
          { basePath := "/", postsPath := "posts", recipesPath := "recipes",
            tagsPath := "tags", postsPerPage := 1,
            do_not_count_type_for_pagination := none,
            do_not_include_type_in_lists := none,
            do_not_create_tag_page_for := none }
          { id := "n1", internalType := "Mdx",
            frontmatter :=
              { title := some "t", slug := some "/a", date := none,
                tags := none, keywords := none, ftype := none,
                snippet := none, abstract := none } }
          { sourceInstanceName := "posts",
            createFilePathResult := "/p/" }).map
        (fun p =>
          (p.fieldData.tags, p.fieldData.keywords, p.fieldData.ftype,
            p.fieldData.snippet, p.fieldData.abstract)) =
      some ([], [], "", "", "") := by
  obtain ⟨post, h⟩ :
      ∃ p, onCreateNode id id id
          { basePath := "/", postsPath := "posts", recipesPath := "recipes",
            tagsPath := "tags", postsPerPage := 1,
            do_not_count_type_for_pagination := none,
            do_not_include_type_in_lists := none,
            do_not_create_tag_page_for := none }
          { id := "n1", internalType := "Mdx",
            frontmatter :=
              { title := some "t", slug := some "/a", date := none,
                tags := none, keywords := none, ftype := none,
                snippet := none, abstract := none } }
          { sourceInstanceName := "posts", createFilePathResult := "/p/" } =
        some p := ⟨_, rfl⟩
  obtain ⟨h1, h2, h3, h4, h5⟩ :=
    C1_missing_fields_default id id id _ _ _ post h
  rw [h, Option.map_some', h1 rfl, h2 rfl, h3 rfl, h4 rfl, h5 rfl]

/-- C9: in the per-post pages created over the date/title-descending
post list, the page for the post at index `i` carries `previousId`
equal to the id of the post at index `i + 1` (undefined for the last
post) and `nextId` equal to the id of the post at index `i - 1`
(undefined for the first post). -/
theorem C9_sibling_ids (opts : ThemeOptions) (posts : List PostNode)
    (i : Nat) (hi : i < posts.length)
    (hp : i < (postPages opts posts).length) :
    ((postPages opts posts).get ⟨i, hp⟩).context =
      PageContext.postCtx opts.basePath opts.basePath
        (posts.get ⟨i, hi⟩).id
        (if h2 : i + 1 < posts.length then
          some ((posts.get ⟨i + 1, h2⟩).id)
         else none)
        (if i = 0 then none
         else
          some ((posts.get
            ⟨i - 1, Nat.lt_of_le_of_lt (Nat.sub_le i 1) hi⟩).id)) := by
  simp only [postPages, List.get_eq_getElem, List.getElem_map,
    List.getElem_range, mkPostPage]
  have hid : (posts.getD i default).id = posts[i].id := by
    rw [List.getD_eq_getElem?_getD, List.getElem?_eq_getElem hi]
    rfl
  have hprev :
      Option.map (fun x => x.id)
          (if i = posts.length - 1 then none else posts[i + 1]?) =
        (if h : i + 1 < posts.length then some posts[i + 1].id
         else none) := by
    by_cases h2 : i + 1 < posts.length
    · have hne : ¬ i = posts.length - 1 := by omega
      rw [if_neg hne, List.getElem?_eq_getElem h2, dif_pos h2]
      rfl
    · have heq : i = posts.length - 1 := by omega
      rw [if_pos heq, dif_neg h2]
      rfl
  have hnext :
      Option.map (fun x => x.id)
          (if i = 0 then none else posts[i - 1]?) =
        (if i = 0 then none else some posts[i - 1].id) := by
    by_cases h0 : i = 0
    · rw [if_pos h0, if_pos h0]
      rfl
    · have hlt : i - 1 < posts.length :=
        Nat.lt_of_le_of_lt (Nat.sub_le i 1) hi
      rw [if_neg h0, if_neg h0, List.getElem?_eq_getElem hlt]
      rfl
  rw [hid, hprev, hnext]

theorem C9_sibling_ids_witness :
    1 < ([{ id := "p1", slug := "/a", tags := [], ftype := "" },
          { id := "p2", slug := "/b", tags := [], ftype := "" },
          { id := "p3", slug := "/c", tags := [], ftype := "" }] :
            List PostNode).length ∧
    ((postPages
        { basePath := "/", postsPath := "posts", recipesPath := "recipes",
          tagsPath := "tags", postsPerPage := 1,
          do_not_count_type_for_pagination := none,
          do_not_include_type_in_lists := none,
          do_not_create_tag_page_for := none }
        [{ id := "p1", slug := "/a", tags := [], ftype := "" },
         { id := "p2", slug := "/b", tags := [], ftype := "" },
         { id := "p3", slug := "/c", tags := [], ftype := "" }]).get
      ⟨1, by decide⟩).context =
      PageContext.postCtx "/" "/" "p2" (some "p3") (some "p1") := by
  refine ⟨by decide, ?_⟩
  have h := C9_sibling_ids
    { basePath := "/", postsPath := "posts", recipesPath := "recipes",
      tagsPath := "tags", postsPerPage := 1,
      do_not_count_type_for_pagination := none,
      do_not_include_type_in_lists := none,
      do_not_create_tag_page_for := none }
    [{ id := "p1", slug := "/a", tags := [], ftype := "" },
     { id := "p2", slug := "/b", tags := [], ftype := "" },
     { id := "p3", slug := "/c", tags := [], ftype := "" }]
    1 (by decide) (by decide)
  simpa using h

/-- C3: for every post list and `postsPerPage > 0`, `createPages`
creates exactly `⌈m / postsPerPage⌉` main listing pages, where `m`
counts the posts whose type is not in
`do_not_count_type_for_pagination` (all posts when that option is
unset); the page with 0-based index `i` has path `basePath` for
`i = 0` and `basePath` followed by `i + 1` otherwise, and carries
context with `skip = i * postsPerPage`, `limit = postsPerPage`,
`current_page = i + 1` and `num_of_pages` equal to that page count. -/
theorem C3_main_pagination (opts : ThemeOptions) (posts : List PostNode)
    (_hp : 0 < opts.postsPerPage) :
    (gridPages opts posts).length =
      (posts.countP (fun p =>
          match opts.do_not_count_type_for_pagination with
          | none => true
          | some excl => decide (p.ftype ∉ excl)) +
        opts.postsPerPage - 1) / opts.postsPerPage ∧
    ∀ i (h : i < (gridPages opts posts).length),
      ((gridPages opts posts).get ⟨i, h⟩).path =
        (if i = 0 then opts.basePath
         else opts.basePath ++ toString (i + 1)) ∧
      ((gridPages opts posts).get ⟨i, h⟩).context =
        PageContext.gridCtx opts.basePath opts.basePath opts.postsPerPage
          (i * opts.postsPerPage) (gridPages opts posts).length (i + 1)
          false (opts.do_not_count_type_for_pagination.getD []) posts := by
  have hm : (filteredPostsByType opts posts).length =
      posts.countP (fun p =>
        match opts.do_not_count_type_for_pagination with
        | none => true
        | some excl => decide (p.ftype ∉ excl)) := by
    unfold filteredPostsByType
    match opts.do_not_count_type_for_pagination with
    | none => simp
    | some excl =>
      rw [List.countP_eq_length_filter]
      congr 1
      apply List.filter_congr
      intro p _
      simp [List.elem_iff]
  have hlen : (gridPages opts posts).length =
      ceilNatDiv (filteredPostsByType opts posts).length
        opts.postsPerPage := by
    simp [gridPages]
  constructor
  · rw [hlen, hm, ceilNatDiv]
  · intro i h
    constructor
    · simp [gridPages]
    · rw [hlen, ceilNatDiv] at *
      simp [gridPages, ceilNatDiv]

theorem C3_main_pagination_witness :
    (0 : Nat) < 2 ∧
    (gridPages
        { basePath := "/", postsPath := "posts", recipesPath := "recipes",
          tagsPath := "tags", postsPerPage := 2,
          do_not_count_type_for_pagination := some ["secret"],
          do_not_include_type_in_lists := none,
          do_not_create_tag_page_for := none }
        [{ id := "p1", slug := "/a", tags := [], ftype := "" },
         { id := "p2", slug := "/b", tags := [], ftype := "secret" },
         { id := "p3", slug := "/c", tags := [], ftype := "" },
         { id := "p4", slug := "/d", tags := [], ftype := "" }]).length =
      (3 + 2 - 1) / 2 := by
  have h := C3_main_pagination
    { basePath := "/", postsPath := "posts", recipesPath := "recipes",
      tagsPath := "tags", postsPerPage := 2,
      do_not_count_type_for_pagination := some ["secret"],
      do_not_include_type_in_lists := none,
      do_not_create_tag_page_for := none }
    [{ id := "p1", slug := "/a", tags := [], ftype := "" },
     { id := "p2", slug := "/b", tags := [], ftype := "secret" },
     { id := "p3", slug := "/c", tags := [], ftype := "" },
     { id := "p4", slug := "/d", tags := [], ftype := "" }]
    (by decide)
  exact ⟨by decide, by rw [h.1]; decide⟩

/-- C8: the `do_not_create_tag_page_for` option has no effect: line 221
computes `global_tags.filter(tag => tag !== do_not_create_tag_page_for)`
but discards the result, so the pages `createPages` creates do not
depend on the option, and a tag listing page is created for every tag
occurring in the filtered post list — including the tag the option
names. -/
theorem C8_tag_option_no_effect (opts : ThemeOptions)
    (result : GraphqlResult) (v : Option String) (tag : String)
    (hp : 0 < opts.postsPerPage)
    (ht : tag ∈ dedupFirst (globalTags (filteredPostsByTag opts
      result.posts))) :
    createPages { opts with do_not_create_tag_page_for := v } result =
      createPages opts result ∧
    ∃ pg ∈ tagPages opts result.posts,
      pg.path = opts.basePath ++ opts.tagsPath ++ "/" ++ tag ++ "/" ∧
      ctxTag pg.context = some tag := by
  constructor
  · rfl
  · have htl : tag ∈ globalTags (filteredPostsByTag opts result.posts) := by
      have aux : ∀ l seen, tag ∈ dedupFirstAux seen l → tag ∈ l := by
        intro l
        induction l with
        | nil => intro seen h; exact absurd h (by simp [dedupFirstAux])
        | cons x xs ih =>
          intro seen h
          unfold dedupFirstAux at h
          split at h
          · exact List.mem_cons_of_mem x (ih seen h)
          · rcases List.mem_cons.mp h with h | h
            · exact h ▸ List.mem_cons_self x xs
            · exact List.mem_cons_of_mem x (ih (x :: seen) h)
      exact aux _ [] ht
    have hcnt : 0 < countByTag (filteredPostsByTag opts result.posts) tag :=
      List.count_pos_iff.mpr htl
    have hnum : 0 < ceilNatDiv
        (countByTag (filteredPostsByTag opts result.posts) tag)
        opts.postsPerPage := by
      unfold ceilNatDiv
      exact Nat.div_pos (by omega) hp
    refine ⟨_, List.mem_flatMap.mpr
      ⟨tag, ht, List.mem_map.mpr ⟨0, List.mem_range.mpr hnum, rfl⟩⟩,
      ?_, ?_⟩
    · simp
    · simp [ctxTag]

theorem C8_tag_option_no_effect_witness :
    (0 : Nat) < 1 ∧
    "a" ∈ dedupFirst (globalTags (filteredPostsByTag
      { basePath := "/", postsPath := "posts", recipesPath := "recipes",
        tagsPath := "tags", postsPerPage := 1,
        do_not_count_type_for_pagination := none,
        do_not_include_type_in_lists := none,
        do_not_create_tag_page_for := some "a" }
      [{ id := "p1", slug := "/a", tags := ["a"], ftype := "" }])) ∧
    createPages
        { basePath := "/", postsPath := "posts", recipesPath := "recipes",
          tagsPath := "tags", postsPerPage := 1,
          do_not_count_type_for_pagination := none,
          do_not_include_type_in_lists := none,
          do_not_create_tag_page_for := none }
        { errors := none,
          posts := [{ id := "p1", slug := "/a", tags := ["a"], ftype := "" }] } =
      createPages
        { basePath := "/", postsPath := "posts", recipesPath := "recipes",
          tagsPath := "tags", postsPerPage := 1,
          do_not_count_type_for_pagination := none,
          do_not_include_type_in_lists := none,
          do_not_create_tag_page_for := some "a" }
        { errors := none,
          posts := [{ id := "p1", slug := "/a", tags := ["a"], ftype := "" }] } ∧
    ∃ pg ∈ tagPages
        { basePath := "/", postsPath := "posts", recipesPath := "recipes",
          tagsPath := "tags", postsPerPage := 1,
          do_not_count_type_for_pagination := none,
          do_not_include_type_in_lists := none,
          do_not_create_tag_page_for := some "a" }
        [{ id := "p1", slug := "/a", tags := ["a"], ftype := "" }],
      pg.path = "/" ++ "tags" ++ "/" ++ "a" ++ "/" ∧
      ctxTag pg.context = some "a" := by
  have h := C8_tag_option_no_effect
    { basePath := "/", postsPath := "posts", recipesPath := "recipes",
      tagsPath := "tags", postsPerPage := 1,
      do_not_count_type_for_pagination := none,
      do_not_include_type_in_lists := none,
      do_not_create_tag_page_for := some "a" }
    { errors := none,
      posts := [{ id := "p1", slug := "/a", tags := ["a"], ftype := "" }] }
    none "a" (by decide) (by decide)
  exact ⟨by decide, by decide, h.1, h.2⟩

/-- C5: every derived tag is obtained by splitting the front-matter
tags string on commas and mapping each piece to its trimmed form with
the combining diacritics U+0300–U+036F (after NFD normalization)
removed and every space replaced by a dash; consequently a derived tag
contains no space and no combining diacritic in that range. -/
theorem C5_derived_tags (nfd : String → String) (s tag : String)
    (h : tag ∈ deriveTags nfd s) :
    (∃ el ∈ splitCommas s, tag = cleanTag nfd el) ∧
    ∀ c ∈ tag.data, c ≠ ' ' ∧ ¬(0x300 ≤ c.toNat ∧ c.toNat ≤ 0x36F) := by
  obtain ⟨el, hel, rfl⟩ := List.mem_map.mp h
  refine ⟨⟨el, hel, rfl⟩, ?_⟩
  intro c hc
  have hmap : (cleanTag nfd el).data =
      ((stripCombining (nfd (jsTrim el))).data).map
        (fun c => if c = ' ' then '-' else c) := rfl
  rw [hmap] at hc
  obtain ⟨b, hb, rfl⟩ := List.mem_map.mp hc
  have hfil : (stripCombining (nfd (jsTrim el))).data =
      ((nfd (jsTrim el)).data).filter (fun c => !isCombining c) := rfl
  rw [hfil] at hb
  have hcomb : isCombining b = false := by
    have := List.of_mem_filter hb
    simpa using this
  by_cases hsp : b = ' '
  · subst hsp
    refine ⟨by decide, by decide⟩
  · rw [if_neg hsp]
    refine ⟨hsp, ?_⟩
    intro hrange
    rw [show isCombining b = (0x300 ≤ b.toNat && b.toNat ≤ 0x36F)
      from rfl] at hcomb
    simp only [Bool.and_eq_false_iff, decide_eq_false_iff_not] at hcomb
    omega

theorem C5_derived_tags_witness :
    "a-b" ∈ deriveTags id "a b, c" ∧
    (∃ el ∈ splitCommas "a b, c", "a-b" = cleanTag id el) ∧
    ∀ c ∈ ("a-b").data,
      c ≠ ' ' ∧ ¬(0x300 ≤ c.toNat ∧ c.toNat ≤ 0x36F) := by
  have hm : "a-b" ∈ deriveTags id "a b, c" := by decide
  exact ⟨hm, C5_derived_tags id "a b, c" "a-b" hm⟩

/-! Shared lemmas about `dedupFirst` and the tag pages. -/

theorem contains_str_iff (l : List String) (x : String) :
    l.contains x = true ↔ x ∈ l := by
  simp [List.contains_iff_exists_mem_beq]

theorem dedupFirstAux_subset {x : String} :
    ∀ (l seen : List String), x ∈ dedupFirstAux seen l → x ∈ l := by
  intro l
  induction l with
  | nil => intro seen h; exact absurd h (by simp [dedupFirstAux])
  | cons y ys ih =>
    intro seen h
    unfold dedupFirstAux at h
    split at h
    · exact List.mem_cons_of_mem y (ih seen h)
    · rcases List.mem_cons.mp h with h | h
      · exact h ▸ List.mem_cons_self y ys
      · exact List.mem_cons_of_mem y (ih (y :: seen) h)

theorem dedupFirstAux_not_seen {x : String} :
    ∀ (l seen : List String), x ∈ dedupFirstAux seen l → x ∉ seen := by
  intro l
  induction l with
  | nil => intro seen h; exact absurd h (by simp [dedupFirstAux])
  | cons y ys ih =>
    intro seen h
    unfold dedupFirstAux at h
    split at h
    · exact ih seen h
    · rcases List.mem_cons.mp h with h | h
      · subst h
        intro hx
        rename_i hc
        exact hc ((contains_str_iff seen x).mpr hx)
      · intro hx
        exact ih (y :: seen) h (List.mem_cons_of_mem y hx)

theorem dedupFirstAux_nodup :
    ∀ (l seen : List String), (dedupFirstAux seen l).Nodup := by
  intro l
  induction l with
  | nil => intro seen; simp [dedupFirstAux]
  | cons y ys ih =>
    intro seen
    unfold dedupFirstAux
    split
    · exact ih seen
    · refine List.nodup_cons.mpr ⟨?_, ih (y :: seen)⟩
      intro hy
      exact dedupFirstAux_not_seen ys (y :: seen) hy
        (List.mem_cons_self y seen)

theorem dedupFirstAux_mem_of_mem {x : String} :
    ∀ (l seen : List String), x ∈ l → x ∉ seen →
      x ∈ dedupFirstAux seen l := by
  intro l
  induction l with
  | nil => intro seen h; exact absurd h (by simp)
  | cons y ys ih =>
    intro seen hx hseen
    unfold dedupFirstAux
    rcases List.mem_cons.mp hx with h | h
    · subst h
      split
    -- if x is already seen, contradiction with hseen
      · rename_i hc
        exact absurd ((contains_str_iff seen x).mp hc) hseen
      · exact List.mem_cons_self x _
    · by_cases hxy : x = y
      · subst hxy
        split
        · rename_i hc
          exact absurd ((contains_str_iff seen x).mp hc) hseen
        · exact List.mem_cons_self x _
      · split
        · exact ih seen h hseen
        · exact List.mem_cons_of_mem y
            (ih (y :: seen) h (by simp [hseen, hxy]))

theorem dedupFirst_mem_iff {x : String} {l : List String} :
    x ∈ dedupFirst l ↔ x ∈ l := by
  unfold dedupFirst
  constructor
  · exact dedupFirstAux_subset l []
  · intro h
    exact dedupFirstAux_mem_of_mem l [] h (by simp)

theorem dedupFirst_nodup (l : List String) : (dedupFirst l).Nodup :=
  dedupFirstAux_nodup l []

theorem tagPagesFor_ctxTag (opts : ThemeOptions) (gts : List String)
    (cnt : Nat) (t : String) :
    ∀ pg ∈ tagPagesFor opts gts cnt t, ctxTag pg.context = some t := by
  intro pg hpg
  obtain ⟨i, _, rfl⟩ := List.mem_map.mp hpg
  rfl

theorem filter_flatMap_tag (gts : List String)
    (f : String → List CreatedPage) (tag : String)
    (hn : gts.Nodup) (htag : tag ∈ gts)
    (hf : ∀ t ∈ gts, ∀ pg ∈ f t, ctxTag pg.context = some t) :
    (gts.flatMap f).filter
        (fun pg => ctxTag pg.context == some tag) = f tag := by
  induction gts with
  | nil => exact absurd htag (by simp)
  | cons x xs ih =>
    rw [List.flatMap_cons, List.filter_append]
    rcases List.nodup_cons.mp hn with ⟨hx, hxs⟩
    by_cases hxt : x = tag
    · subst hxt
      have h1 : (f x).filter
          (fun pg => ctxTag pg.context == some x) = f x := by
        apply List.filter_eq_self.mpr
        intro pg hpg
        simp [hf x (List.mem_cons_self x xs) pg hpg]
      have h2 : (xs.flatMap f).filter
          (fun pg => ctxTag pg.context == some x) = [] := by
        apply List.filter_eq_nil_iff.mpr
        intro pg hpg
        obtain ⟨t, ht, hpgt⟩ := List.mem_flatMap.mp hpg
        have := hf t (List.mem_cons_of_mem x ht) pg hpgt
        simp only [this, beq_iff_eq, Option.some.injEq]
        intro hteq
        exact hx (hteq ▸ ht)
      rw [h1, h2, List.append_nil]
    · have htx : tag ∈ xs := by
        rcases List.mem_cons.mp htag with h | h
        · exact absurd h.symm hxt
        · exact h
      have h1 : (f x).filter
          (fun pg => ctxTag pg.context == some tag) = [] := by
        apply List.filter_eq_nil_iff.mpr
        intro pg hpg
        have := hf x (List.mem_cons_self x xs) pg hpg
        simp only [this, beq_iff_eq, Option.some.injEq]
        exact fun h => hxt h
      rw [h1, List.nil_append]
      exact ih hxs htx
        (fun t ht => hf t (List.mem_cons_of_mem x ht))

/-- C6 counterexample: a single post whose tag list is `["a", "a"]`
(front-matter tags `"a, a"`) with `postsPerPage = 1`.  Only one
filtered post carries the tag `"a"`, so the claim predicts
`⌈1 / 1⌉ = 1` tag page for `"a"`, but the code counts occurrences and
creates 2. -/
theorem C6_counterexample :
    ((tagPages
        { basePath := "/", postsPath := "posts", recipesPath := "recipes",
          tagsPath := "tags", postsPerPage := 1,
          do_not_count_type_for_pagination := none,
          do_not_include_type_in_lists := none,
          do_not_create_tag_page_for := none }
        [{ id := "p1", slug := "/a", tags := ["a", "a"],
           ftype := "" }]).filter
      (fun pg => ctxTag pg.context == some "a")).length = 2 ∧
    ((filteredPostsByTag
        { basePath := "/", postsPath := "posts", recipesPath := "recipes",
          tagsPath := "tags", postsPerPage := 1,
          do_not_count_type_for_pagination := none,
          do_not_include_type_in_lists := none,
          do_not_create_tag_page_for := none }
        [{ id := "p1", slug := "/a", tags := ["a", "a"],
           ftype := "" }]).countP
      (fun p => decide ("a" ∈ p.tags))) = 1 ∧
    (2 : Nat) ≠ (1 + 1 - 1) / 1 := by
  refine ⟨by decide, by decide, by decide⟩

/-- C6 (amended): for every tag occurring in the posts kept after
filtering by `do_not_include_type_in_lists`, `createPages` creates
exactly `⌈c / postsPerPage⌉` tag pages, where `c` is the number of
OCCURRENCES of that tag across the filtered posts' tag lists (a post
listing the tag more than once counts once per occurrence); the page
with 0-based index 0 has path `basePath + tagsPath + "/" + tag + "/"`
and index `i > 0` has that path followed by `i + 1`, each carrying
context with `skip = i * postsPerPage` and `limit = postsPerPage`. -/
theorem C6_tag_pagination (opts : ThemeOptions) (posts : List PostNode)
    (_hp : 0 < opts.postsPerPage) (tag : String)
    (ht : tag ∈ globalTags (filteredPostsByTag opts posts)) :
    ((tagPages opts posts).filter
        (fun pg => ctxTag pg.context == some tag)).length =
      ((globalTags (filteredPostsByTag opts posts)).count tag +
        opts.postsPerPage - 1) / opts.postsPerPage ∧
    ∀ i (h : i < ((tagPages opts posts).filter
        (fun pg => ctxTag pg.context == some tag)).length),
      (((tagPages opts posts).filter
          (fun pg => ctxTag pg.context == some tag)).get ⟨i, h⟩).path =
        (if i = 0 then
          opts.basePath ++ opts.tagsPath ++ "/" ++ tag ++ "/"
         else
          opts.basePath ++ opts.tagsPath ++ "/" ++ tag ++ "/" ++
            toString (i + 1)) ∧
      ctxSkip (((tagPages opts posts).filter
          (fun pg => ctxTag pg.context == some tag)).get ⟨i, h⟩).context =
        some (i * opts.postsPerPage) ∧
      ctxLimit (((tagPages opts posts).filter
          (fun pg => ctxTag pg.context == some tag)).get ⟨i, h⟩).context =
        some opts.postsPerPage := by
  have hfe : (tagPages opts posts).filter
      (fun pg => ctxTag pg.context == some tag) =
      tagPagesFor opts (dedupFirst (globalTags (filteredPostsByTag opts
        posts)))
        (countByTag (filteredPostsByTag opts posts) tag) tag := by
    unfold tagPages
    exact filter_flatMap_tag _ _ tag
      (dedupFirst_nodup _) (dedupFirst_mem_iff.mpr ht)
      (fun t _ => tagPagesFor_ctxTag opts _ _ t)
  rw [hfe]
  constructor
  · simp [tagPagesFor, countByTag, ceilNatDiv]
  · intro i h
    refine ⟨?_, ?_, ?_⟩ <;>
      simp [tagPagesFor, ctxSkip, ctxLimit, List.get_eq_getElem]

theorem C6_tag_pagination_witness :
    (0 : Nat) < 1 ∧
    "a" ∈ globalTags (filteredPostsByTag
      { basePath := "/", postsPath := "posts", recipesPath := "recipes",
        tagsPath := "tags", postsPerPage := 1,
        do_not_count_type_for_pagination := none,
        do_not_include_type_in_lists := none,
        do_not_create_tag_page_for := none }
      [{ id := "p1", slug := "/a", tags := ["a", "b"], ftype := "" }]) ∧
    ((tagPages
        { basePath := "/", postsPath := "posts", recipesPath := "recipes",
          tagsPath := "tags", postsPerPage := 1,
          do_not_count_type_for_pagination := none,
          do_not_include_type_in_lists := none,
          do_not_create_tag_page_for := none }
        [{ id := "p1", slug := "/a", tags := ["a", "b"],
           ftype := "" }]).filter
      (fun pg => ctxTag pg.context == some "a")).length =
      ((globalTags (filteredPostsByTag
          { basePath := "/", postsPath := "posts",
            recipesPath := "recipes", tagsPath := "tags",
            postsPerPage := 1,
            do_not_count_type_for_pagination := none,
            do_not_include_type_in_lists := none,
            do_not_create_tag_page_for := none }
          [{ id := "p1", slug := "/a", tags := ["a", "b"],
             ftype := "" }])).count "a" + 1 - 1) / 1 := by
  have h := C6_tag_pagination
    { basePath := "/", postsPath := "posts", recipesPath := "recipes",
      tagsPath := "tags", postsPerPage := 1,
      do_not_count_type_for_pagination := none,
      do_not_include_type_in_lists := none,
      do_not_create_tag_page_for := none }
    [{ id := "p1", slug := "/a", tags := ["a", "b"], ftype := "" }]
    (by decide) "a" (by decide)
  exact ⟨by decide, by decide, h.1⟩

/-- C10 counterexample: with `basePath = "/blog"`, a page whose path is
`"/../x"` (no `"404"` in it) is deleted and recreated with path
`"/x"`, which is NOT prefixed by the normalized basePath `"/blog"`:
`urlResolve` resolves the `..` segment away. -/
theorem C10_counterexample :
    onCreatePage
        { basePath := "/blog", postsPath := "posts",
          recipesPath := "recipes", tagsPath := "tags", postsPerPage := 1,
          do_not_count_type_for_pagination := none,
          do_not_include_type_in_lists := none,
          do_not_create_tag_page_for := none }
        ({ path := "/../x", context := [], other := () } : Page Unit) =
      PageAction.replace
        { path := "/x", context := [("basePath", "/blog")],
          other := () } ∧
    jsIncludes "/../x" "404" = false ∧
    String.isPrefixOf (replacePath "/blog") "/x" = false := by
  refine ⟨by decide, by decide, by decide⟩

/-- C10 (amended): `onCreatePage` leaves every page whose path contains
the substring `"404"` completely unchanged (neither deletes nor
recreates it); every other page is deleted and recreated with path
`urlResolve(replacePath(basePath), replacePath(page.path))` — which
need not start with the normalized basePath when the page path climbs
with `..` segments — with a `basePath` entry prepended to its context
(original entries preserved and, per JS spread order, winning on key
clashes) and all other page fields preserved. -/
theorem C10_onCreatePage_effect {α : Type} (opts : ThemeOptions)
    (page : Page α) :
    (jsIncludes page.path "404" = true →
      onCreatePage opts page = PageAction.unchanged) ∧
    (jsIncludes page.path "404" = false →
      onCreatePage opts page = PageAction.replace
        { path := urlResolve (replacePath opts.basePath)
            (replacePath page.path)
          context := ("basePath", opts.basePath) :: page.context
          other := page.other }) := by
  constructor
  · intro h
    simp [onCreatePage, h]
  · intro h
    simp [onCreatePage, h]

theorem C10_onCreatePage_effect_witness :
    jsIncludes "/404/" "404" = true ∧
    onCreatePage
        { basePath := "/blog", postsPath := "posts",
          recipesPath := "recipes", tagsPath := "tags", postsPerPage := 1,
          do_not_count_type_for_pagination := none,
          do_not_include_type_in_lists := none,
          do_not_create_tag_page_for := none }
        ({ path := "/404/", context := [], other := () } : Page Unit) =
      PageAction.unchanged ∧
    jsIncludes "/about/" "404" = false ∧
    onCreatePage
        { basePath := "/blog", postsPath := "posts",
          recipesPath := "recipes", tagsPath := "tags", postsPerPage := 1,
          do_not_count_type_for_pagination := none,
          do_not_include_type_in_lists := none,
          do_not_create_tag_page_for := none }
        ({ path := "/about/", context := [("k", "v")], other := () } :
          Page Unit) =
      PageAction.replace
        { path := urlResolve (replacePath "/blog") (replacePath "/about/")
          context := [("basePath", "/blog"), ("k", "v")]
          other := () } := by
  refine ⟨by decide, ?_, by decide, ?_⟩
  · exact (C10_onCreatePage_effect
      { basePath := "/blog", postsPath := "posts",
        recipesPath := "recipes", tagsPath := "tags", postsPerPage := 1,
        do_not_count_type_for_pagination := none,
        do_not_include_type_in_lists := none,
        do_not_create_tag_page_for := none }
      ({ path := "/404/", context := [], other := () } : Page Unit)).1
      (by decide)
  · exact (C10_onCreatePage_effect
      { basePath := "/blog", postsPath := "posts",
        recipesPath := "recipes", tagsPath := "tags", postsPerPage := 1,
        do_not_count_type_for_pagination := none,
        do_not_include_type_in_lists := none,
        do_not_create_tag_page_for := none }
      ({ path := "/about/", context := [("k", "v")], other := () } :
        Page Unit)).2
      (by decide)

/-! Shared lemmas towards C4: the output of `posixNormalize` (hence of
`urlResolve`) never ends in two consecutive slashes, so the final
`replacePath` removes any trailing slash entirely. -/

theorem splitOnChar_not_mem (sep : Char) :
    ∀ (l : List Char), ∀ s ∈ splitOnChar sep l, sep ∉ s := by
  intro l
  induction l with
  | nil =>
    intro s hs
    simp only [splitOnChar, List.mem_singleton] at hs
    subst hs
    simp
  | cons c cs ih =>
    intro s hs
    unfold splitOnChar at hs
    by_cases hc : c = sep
    · rw [if_pos hc] at hs
      rcases List.mem_cons.mp hs with h | h
      · subst h; simp
      · exact ih s h
    · rw [if_neg hc] at hs
      rcases hr : splitOnChar sep cs with _ | ⟨t, ts⟩
      · rw [hr] at hs
        simp only [List.mem_singleton] at hs
        subst hs
        simp only [List.mem_singleton]
        exact fun h => hc h.symm
      · rw [hr] at hs
        rcases List.mem_cons.mp hs with h | h
        · subst h
          intro hmem
          rcases List.mem_cons.mp hmem with h | h
          · exact hc h.symm
          · exact ih t (hr ▸ List.mem_cons_self t ts) h
        · exact ih s (hr ▸ List.mem_cons_of_mem t h)

theorem normStep_inv (aar : Bool) (acc : List (List Char))
    (seg : List Char)
    (hacc : ∀ s ∈ acc, s ≠ [] ∧ '/' ∉ s) (hseg : '/' ∉ seg) :
    ∀ s ∈ normStep aar acc seg, s ≠ [] ∧ '/' ∉ s := by
  intro s hs
  unfold normStep at hs
  by_cases h1 : seg = [] ∨ seg = ['.']
  · rw [if_pos h1] at hs
    exact hacc s hs
  · rw [if_neg h1] at hs
    by_cases h2 : seg = ['.', '.']
    · rw [if_pos h2] at hs
      rcases acc with _ | ⟨top, rest⟩
      · dsimp only at hs
        cases aar
        · simp at hs
        · simp only [if_true] at hs
          rcases List.mem_singleton.mp hs with rfl
          exact ⟨by simp, by decide⟩
      · dsimp only at hs
        by_cases h3 : top = ['.', '.']
        · rw [if_pos h3] at hs
          cases aar
          · simp only [Bool.false_eq_true, if_false] at hs
            exact hacc s hs
          · simp only [if_true] at hs
            rcases List.mem_cons.mp hs with rfl | h
            · exact ⟨by simp, by decide⟩
            · exact hacc s h
        · rw [if_neg h3] at hs
          exact hacc s (List.mem_cons_of_mem top hs)
    · rw [if_neg h2] at hs
      rcases List.mem_cons.mp hs with rfl | h
      · refine ⟨?_, hseg⟩
        intro hnil
        exact h1 (Or.inl hnil)
      · exact hacc s h

theorem foldl_normStep_inv (aar : Bool) :
    ∀ (segs acc : List (List Char)),
      (∀ s ∈ acc, s ≠ [] ∧ '/' ∉ s) → (∀ s ∈ segs, '/' ∉ s) →
      ∀ s ∈ segs.foldl (normStep aar) acc, s ≠ [] ∧ '/' ∉ s := by
  intro segs
  induction segs with
  | nil =>
    intro acc hacc _ s hs
    exact hacc s hs
  | cons x xs ih =>
    intro acc hacc hsegs s hs
    rw [List.foldl_cons] at hs
    exact ih (normStep aar acc x)
      (normStep_inv aar acc x hacc (hsegs x (List.mem_cons_self x xs)))
      (fun t ht => hsegs t (List.mem_cons_of_mem x ht)) s hs

theorem normSegs_inv (aar : Bool) (l : List Char) :
    ∀ s ∈ normSegs aar (splitOnChar '/' l), s ≠ [] ∧ '/' ∉ s := by
  intro s hs
  unfold normSegs at hs
  rw [List.mem_reverse] at hs
  exact foldl_normStep_inv aar _ [] (by simp)
    (splitOnChar_not_mem '/' l) s hs

theorem joinSegs_last_ne_slash :
    ∀ (segs : List (List Char)),
      (∀ s ∈ segs, s ≠ [] ∧ '/' ∉ s) → segs ≠ [] →
      ∃ c cs, (joinSegs segs).reverse = c :: cs ∧ c ≠ '/' := by
  intro segs
  induction segs with
  | nil =>
    intro _ h
    exact absurd rfl h
  | cons s ss ih =>
    intro hinv _
    rcases ss with _ | ⟨t, ts⟩
    · obtain ⟨hne, hnmem⟩ := hinv s (by simp)
      rcases hrev : s.reverse with _ | ⟨c, cs⟩
      · exact absurd (by simpa using congrArg List.reverse hrev) hne
      · refine ⟨c, cs, by simpa [joinSegs] using hrev, ?_⟩
        intro hc
        apply hnmem
        rw [← List.mem_reverse, hrev, hc]
        exact List.mem_cons_self _ _
    · obtain ⟨c, cs, hrev, hc⟩ :=
        ih (fun x hx => hinv x (List.mem_cons_of_mem s hx)) (by simp)
      refine ⟨c, cs ++ '/' :: s.reverse, ?_, hc⟩
      show (s ++ '/' :: joinSegs (t :: ts)).reverse =
        c :: (cs ++ '/' :: s.reverse)
      rw [List.reverse_append, List.reverse_cons, hrev]
      simp

theorem endsTwoSlash_of_head_ne (d : List Char) (c : Char)
    (cs : List Char) (h : d.reverse = c :: cs) (hc : c ≠ '/') :
    endsTwoSlash (String.mk d) = false := by
  unfold endsTwoSlash
  rw [show (String.mk d).data = d from rfl, h]
  rcases cs with _ | ⟨c1, cs'⟩
  · rfl
  · show (c == '/' && c1 == '/') = false
    simp [hc]

theorem endsTwoSlash_of_second_ne (d : List Char) (c1 : Char)
    (cs : List Char) (h : d.reverse = '/' :: c1 :: cs) (hc : c1 ≠ '/') :
    endsTwoSlash (String.mk d) = false := by
  unfold endsTwoSlash
  rw [show (String.mk d).data = d from rfl, h]
  show ('/' == '/' && c1 == '/') = false
  simp [hc]

theorem endsTwoSlash_assembled (pre core : List Char) (trailing : Bool)
    (c : Char) (cs : List Char)
    (hrev : core.reverse = c :: cs) (hc : c ≠ '/') :
    endsTwoSlash (String.mk
      (pre ++ core ++ (if trailing then ['/'] else []))) = false := by
  cases trailing
  · apply endsTwoSlash_of_head_ne _ c (cs ++ pre.reverse)
    · simp [List.reverse_append, hrev]
    · exact hc
  · apply endsTwoSlash_of_second_ne _ c (cs ++ pre.reverse)
    · simp [List.reverse_append, hrev]
    · exact hc

theorem posixNormalize_not_two_slash (p : String) :
    endsTwoSlash (posixNormalize p) = false := by
  unfold posixNormalize
  by_cases hnil : p.data = []
  · rw [if_pos hnil]
    rfl
  · rw [if_neg hnil]
    dsimp only
    by_cases hcore :
        joinSegs (normSegs (!isAbsolutePosix p) (splitOnChar '/' p.data)) =
          []
    · rw [if_pos hcore]
      by_cases hA : isAbsolutePosix p = true
      · rw [if_pos hA]
        rfl
      · rw [if_neg hA]
        by_cases hT : endsSlash p = true
        · rw [if_pos hT]
          rfl
        · rw [if_neg hT]
          rfl
    · rw [if_neg hcore]
      have hne : normSegs (!isAbsolutePosix p) (splitOnChar '/' p.data) ≠
          [] := by
        intro h
        exact hcore (by rw [h]; rfl)
      obtain ⟨c, cs, hrev, hc⟩ :=
        joinSegs_last_ne_slash _ (normSegs_inv _ p.data) hne
      exact endsTwoSlash_assembled _ _ _ c cs hrev hc

theorem urlResolve_not_two_slash (a b : String) :
    endsTwoSlash (urlResolve a b) = false := by
  unfold urlResolve
  split
  · rfl
  · split
    · exact posixNormalize_not_two_slash b
    · split
      · exact posixNormalize_not_two_slash a
      · exact posixNormalize_not_two_slash _

theorem string_eq_iff_data {s t : String} : s = t ↔ s.data = t.data := by
  constructor
  · intro h
    rw [h]
  · intro h
    cases s
    cases t
    exact congrArg String.mk h

theorem replacePath_no_trailing (r : String)
    (h2 : endsTwoSlash r = false) :
    replacePath r = "/" ∨ endsSlash (replacePath r) = false := by
  unfold replacePath
  by_cases hr : r = "/"
  · rw [if_pos hr]
    exact Or.inl hr
  · rw [if_neg hr]
    rcases hrev : r.data.reverse with _ | ⟨c0, rest⟩
    · have hdata : r.data = [] := List.reverse_eq_nil_iff.mp hrev
      have hlast : r.data.getLast? ≠ some '/' := by
        rw [hdata]
        simp
      rw [if_neg hlast]
      refine Or.inr ?_
      unfold endsSlash
      rw [hdata]
      simp
    · by_cases hc0 : c0 = '/'
      · subst hc0
        have hlast : r.data.getLast? = some '/' := by
          rw [← List.head?_reverse, hrev]
          rfl
        rw [if_pos hlast]
        refine Or.inr ?_
        rcases rest with _ | ⟨c1, rest'⟩
        · -- r.data = ['/'], contradicting r ≠ "/"
          exfalso
          apply hr
          apply string_eq_iff_data.mpr
          have hd : r.data = ['/'] := by
            have := congrArg List.reverse hrev
            simpa using this
          rw [hd]
        · have hc1 : c1 ≠ '/' := by
            intro hc1
            subst hc1
            unfold endsTwoSlash at h2
            rw [hrev] at h2
            simp at h2
          have hdata : r.data = (c1 :: rest').reverse ++ ['/'] := by
            have := congrArg List.reverse hrev
            simpa using this
          unfold endsSlash
          rw [show (String.mk r.data.dropLast).data = r.data.dropLast
            from rfl, hdata, List.dropLast_concat, List.getLast?_reverse]
          simpa using hc1
      · have hlast : r.data.getLast? ≠ some '/' := by
          rw [← List.head?_reverse, hrev]
          simpa using hc0
        rw [if_neg hlast]
        refine Or.inr ?_
        unfold endsSlash
        rw [← List.head?_reverse, hrev]
        simpa using hc0

/-- C4 counterexample: a front-matter slug `"/a//"` is absolute, so it
is stored verbatim and `replacePath` removes only one slash, leaving
the stored slug `"/a/"` — which ends in a trailing slash yet is not
`"/"`.  Moreover two distinct nodes (different ids) with the same
front-matter receive identical slugs, so slugs are not duplicate-free. -/
theorem C4_counterexample :
    deriveSlug
        { basePath := "/", postsPath := "posts", recipesPath := "recipes",
          tagsPath := "tags", postsPerPage := 1,
          do_not_count_type_for_pagination := none,
          do_not_include_type_in_lists := none,
          do_not_create_tag_page_for := none }
        { title := none, slug := some "/a//", date := none, tags := none,
          keywords := none, ftype := none, snippet := none,
          abstract := none }
        "/f/" = "/a/" ∧
    endsSlash "/a/" = true ∧ "/a/" ≠ "/" ∧
    ({ id := "n1", internalType := "Mdx",
       frontmatter :=
         { title := none, slug := some "/b", date := none, tags := none,
           keywords := none, ftype := none, snippet := none,
           abstract := none } } : NodeInput) ≠
      { id := "n2", internalType := "Mdx",
        frontmatter :=
          { title := none, slug := some "/b", date := none, tags := none,
            keywords := none, ftype := none, snippet := none,
            abstract := none } } ∧
    (onCreateNode id id id
        { basePath := "/", postsPath := "posts", recipesPath := "recipes",
          tagsPath := "tags", postsPerPage := 1,
          do_not_count_type_for_pagination := none,
          do_not_include_type_in_lists := none,
          do_not_create_tag_page_for := none }
        { id := "n1", internalType := "Mdx",
          frontmatter :=
            { title := none, slug := some "/b", date := none,
              tags := none, keywords := none, ftype := none,
              snippet := none, abstract := none } }
        { sourceInstanceName := "posts",
          createFilePathResult := "/f/" }).map (fun p => p.fieldData.slug) =
      (onCreateNode id id id
        { basePath := "/", postsPath := "posts", recipesPath := "recipes",
          tagsPath := "tags", postsPerPage := 1,
          do_not_count_type_for_pagination := none,
          do_not_include_type_in_lists := none,
          do_not_create_tag_page_for := none }
        { id := "n2", internalType := "Mdx",
          frontmatter :=
            { title := none, slug := some "/b", date := none,
              tags := none, keywords := none, ftype := none,
              snippet := none, abstract := none } }
        { sourceInstanceName := "posts",
          createFilePathResult := "/f/" }).map
        (fun p => p.fieldData.slug) := by
  refine ⟨by decide, by decide, by decide, by decide, by decide⟩

/-- C4 (amended): every stored slug is `replacePath` of a raw slug that
never ends in two consecutive slashes unless the front-matter slug is
an absolute path ending in `"//"`; hence, provided an absolute
front-matter slug does not end in two consecutive slashes, the stored
slug never ends in a trailing slash (unless it is exactly `"/"`).
Slugs are NOT guaranteed duplicate-free: the derivation reads only the
front-matter, file path and options, so distinct posts can share a
slug. -/
theorem C4_slug_trailing (opts : ThemeOptions) (fm : Frontmatter)
    (filePath : String)
    (habs : isAbsolutePosix (fm.slug.getD "") = true →
      endsTwoSlash (fm.slug.getD "") = false) :
    deriveSlug opts fm filePath = "/" ∨
      endsSlash (deriveSlug opts fm filePath) = false := by
  have hd : deriveSlug opts fm filePath = replacePath
      (if fm.slug.getD "" ≠ "" then
        (if isAbsolutePosix (fm.slug.getD "") then fm.slug.getD ""
         else urlResolve opts.basePath (fm.slug.getD ""))
       else urlResolve opts.basePath (changedPath filePath)) := rfl
  rw [hd]
  by_cases h1 : fm.slug.getD "" ≠ ""
  · rw [if_pos h1]
    by_cases h2 : isAbsolutePosix (fm.slug.getD "") = true
    · rw [if_pos h2]
      exact replacePath_no_trailing _ (habs h2)
    · rw [if_neg h2]
      exact replacePath_no_trailing _ (urlResolve_not_two_slash _ _)
  · rw [if_neg h1]
    exact replacePath_no_trailing _ (urlResolve_not_two_slash _ _)

theorem C4_slug_trailing_witness :
    (isAbsolutePosix (((some "/ok/" : Option String)).getD "") = true →
      endsTwoSlash (((some "/ok/" : Option String)).getD "") = false) ∧
    (deriveSlug
        { basePath := "/", postsPath := "posts", recipesPath := "recipes",
          tagsPath := "tags", postsPerPage := 1,
          do_not_count_type_for_pagination := none,
          do_not_include_type_in_lists := none,
          do_not_create_tag_page_for := none }
        { title := none, slug := some "/ok/", date := none, tags := none,
          keywords := none, ftype := none, snippet := none,
          abstract := none }
        "/f/" = "/" ∨
      endsSlash (deriveSlug
        { basePath := "/", postsPath := "posts", recipesPath := "recipes",
          tagsPath := "tags", postsPerPage := 1,
          do_not_count_type_for_pagination := none,
          do_not_include_type_in_lists := none,
          do_not_create_tag_page_for := none }
        { title := none, slug := some "/ok/", date := none, tags := none,
          keywords := none, ftype := none, snippet := none,
          abstract := none }
        "/f/") = false) :=
  ⟨fun _ => by decide,
    C4_slug_trailing
      { basePath := "/", postsPath := "posts", recipesPath := "recipes",
        tagsPath := "tags", postsPerPage := 1,
        do_not_count_type_for_pagination := none,
        do_not_include_type_in_lists := none,
        do_not_create_tag_page_for := none }
      { title := none, slug := some "/ok/", date := none, tags := none,
        keywords := none, ftype := none, snippet := none,
        abstract := none }
      "/f/" (fun _ => by decide)⟩

end GatsbyKuworking
